import Mathlib

/-!
Verification of the fallback-aware response-generation flows of the
gemini-chat-bot repository.

The repository contains several iterations of the same small flow:

* `src/ai/flows/generate-response.ts` — a Genkit flow `generateResponseFlow`
  that invokes the prompt object `generateResponsePrompt` and, when that
  invocation throws, invokes the distinct prompt object
  `generateResponseFallbackPrompt` with the same input.  Each prompt object
  carries its own Handlebars template string; we embed those template strings
  verbatim (braces written with hexadecimal escapes) and record each external
  call as a pair of the template used and the input passed, since the prompt
  actually sent to the model is a function of exactly that pair.
* the string-builder iteration of `generateResponseFlow` — builds one flat
  prompt string by concatenation and calls a single external client; on any
  throw it returns a fixed failure message as a normal value.
* `routeToFallbackModelFlow` — a primary/fallback pair of single-line prompt
  templates over one `userInput` field; the rendered prompt strings are
  embedded exactly.
* the page component `handleSendMessage` — the UI guard that silently drops a
  send when the trimmed input and the selected image are both empty.

External model behaviour is a parameter: a client is a function returning
`Except String _`, where `Except.error` models a thrown exception.  The flows
are embedded with an explicit call trace (the list of calls made, in order) so
that call-counting properties can be stated.
-/

/-- ChatMessageSchema: message text, whether the user sent it, and an optional
image data URL. -/
structure ChatMessage where
  text : String
  isUser : Bool
  image : Option String
  deriving DecidableEq

/-- GenerateResponseInputSchema: the user message, optional chat history and
optional image data URL. -/
structure GenerateResponseInput where
  message : String
  chatHistory : Option (List ChatMessage)
  image : Option String
  deriving DecidableEq

/-- GenerateResponseOutputSchema: the AI response string. -/
structure GenerateResponseOutput where
  response : String
  deriving DecidableEq

/-- JavaScript truthiness of an optional string value: `undefined`, `null`
and the empty string are falsy. -/
def optTruthy : Option String → Bool
  | none => false
  | some s => !s.isEmpty

/-- Whitespace characters removed by the JavaScript `trim` method (the ASCII
ones; the guard below only tests whether anything else remains). -/
def jsWhitespace (c : Char) : Bool :=
  c == ' ' || c == '\t' || c == '\n' || c == '\r' || c == '\x0b' || c == '\x0c'

/-- Model of the JavaScript `String.prototype.trim`: drop whitespace from
both ends. -/
def jsTrim (s : String) : String :=
  ⟨((s.data.dropWhile jsWhitespace).reverse.dropWhile jsWhitespace).reverse⟩

/-- Does the second list of characters start with the first? -/
def startsWithL : List Char → List Char → Bool
  | [], _ => true
  | _ :: _, [] => false
  | p :: ps, c :: cs => p == c && startsWithL ps cs

/-- Does the second list of characters contain the first as a contiguous
sublist? -/
def containsSubL (pat : List Char) : List Char → Bool
  | [] => startsWithL pat []
  | c :: cs => startsWithL pat (c :: cs) || containsSubL pat cs

/-- Substring membership test used to state presence or absence of a section
in a concrete built prompt. -/
def strContains (hay pat : String) : Bool :=
  containsSubL pat.data hay.data

/-- Fixed preamble of the string-builder prompt (the initial value of the
`prompt` variable in the string-builder iteration of `generateResponseFlow`,
line 47). -/
def systemPreamble : String :=
  "You are a helpful AI assistant. Respond to the user message, taking into account the previous chat history to maintain context.  If the user uploads an image, describe the image, or answer the user\x27s question about the image."

/-- Serialization of one history turn by the string-builder iteration
(lines 51 to 60): a user turn emits a `User:` line and, when the image field
is truthy, a `User Image:` line; a non-user turn emits only an `AI:` line. -/
def renderTurn (m : ChatMessage) : String :=
  if m.isUser then
    "User: " ++ m.text ++ "\n" ++
      (match m.image with
       | some img => if img.isEmpty then "" else "User Image: " ++ img ++ "\n"
       | none => "")
  else
    "AI: " ++ m.text ++ "\n"

/-- History section of the string-builder prompt (lines 49 to 61).  The
source tests `if (input.chatHistory)`: `undefined` is falsy, but any array,
including the empty array, is truthy, so a present-but-empty history still
emits the `Chat History:` header. -/
def renderHistorySection : Option (List ChatMessage) → String
  | none => ""
  | some h => "\nChat History:\n" ++ String.join (h.map renderTurn)

/-- Image section of the string-builder prompt (lines 65 to 68).  The source
guards with `if (input.message && input.image)`, so the image is included only
when the message is a non-empty string and the image is present and
non-empty. -/
def imageSection (input : GenerateResponseInput) : String :=
  match input.image with
  | some img =>
      if !input.message.isEmpty && !img.isEmpty then
        "\nUser Image: " ++ img ++ "\nPlease describe the image."
      else ""
  | none => ""

/-- Prompt construction of the string-builder iteration of
`generateResponseFlow` (lines 47 to 68), assembled in source order. -/
def buildPrompt (input : GenerateResponseInput) : String :=
  systemPreamble ++ renderHistorySection input.chatHistory
    ++ "\nMessage: " ++ input.message ++ imageSection input

/-- Fixed message returned by the string-builder iteration when the external
call throws (line 74). -/
def fallbackFailureMessage : String :=
  "Failed to get response from AI. Please try again."

/-- generateResponseFlow of the string-builder iteration (lines 45 to 77):
build the prompt, call the external client once, wrap its text on success and
return the fixed failure message when it throws.  The second component is the
trace of prompt strings sent to the external client. -/
def generateResponseFlowSB (client : String → Except String String)
    (input : GenerateResponseInput) : GenerateResponseOutput × List String :=
  let prompt := buildPrompt input
  match client prompt with
  | .ok aiResponse => ({ response := aiResponse }, [prompt])
  | .error _ => ({ response := fallbackFailureMessage }, [prompt])

/-- Template string of `generateResponsePrompt` in
`src/ai/flows/generate-response.ts` (lines 61 to 81), copied verbatim with
braces written as hexadecimal escapes. -/
def generateResponsePromptTemplate : String :=
  "You are a helpful AI assistant. Respond to the user message, taking into account the previous chat history to maintain context.  If the user uploads an image, describe the image, or answer the user\x27s question about the image.\n" ++
  "\n" ++
  "\x7b\x7b#if chatHistory\x7d\x7d\n" ++
  "Chat History:\n" ++
  "  \x7b\x7b#each chatHistory\x7d\x7d\n" ++
  "    \x7b\x7b#if isUser\x7d\x7d\n" ++
  "      User: \x7b\x7b\x7btext\x7d\x7d\x7d\n" ++
  "      \x7b\x7b#if image\x7d\x7d\n" ++
  "        User Image: \x7b\x7bmedia url=image\x7d\x7d\n" ++
  "      \x7b\x7b/if\x7d\x7d\n" ++
  "    \x7b\x7belse\x7d\x7d\n" ++
  "      AI: \x7b\x7b\x7btext\x7d\x7d\x7d\n" ++
  "    \x7b\x7b/if\x7d\x7d\n" ++
  "  \x7b\x7b/each\x7d\x7d\n" ++
  "\x7b\x7b/if\x7d\x7d\n" ++
  "\n" ++
  "Message: \x7b\x7b\x7bmessage\x7d\x7d\x7d\n" ++
  "\x7b\x7b#if image\x7d\x7d\n" ++
  "User Image: \x7b\x7bmedia url=image\x7d\x7d\n" ++
  "Please describe the image.\n" ++
  "\x7b\x7b/if\x7d\x7d"

/-- Template string of `generateResponseFallbackPrompt` in
`src/ai/flows/generate-response.ts` (lines 99 to 119), copied verbatim with
braces written as hexadecimal escapes.  Its preamble differs from the primary
template. -/
def generateResponseFallbackPromptTemplate : String :=
  "You are a helpful AI assistant, using a less capable model than usual. Respond to the user message, taking into account the previous chat history to maintain context. If the user uploads an image, describe the image, or answer the user\x27s question about the image.\n" ++
  "\n" ++
  "\x7b\x7b#if chatHistory\x7d\x7d\n" ++
  "Chat History:\n" ++
  "  \x7b\x7b#each chatHistory\x7d\x7d\n" ++
  "    \x7b\x7b#if isUser\x7d\x7d\n" ++
  "      User: \x7b\x7b\x7btext\x7d\x7d\x7d\n" ++
  "       \x7b\x7b#if image\x7d\x7d\n" ++
  "        User Image: \x7b\x7bmedia url=image\x7d\x7d\n" ++
  "      \x7b\x7b/if\x7d\x7d\n" ++
  "    \x7b\x7belse\x7d\x7d\n" ++
  "      AI: \x7b\x7b\x7btext\x7d\x7d\x7d\n" ++
  "    \x7b\x7b/if\x7d\x7d\n" ++
  "  \x7b\x7b/each\x7d\x7d\n" ++
  "\x7b\x7b/if\x7d\x7d\n" ++
  "\n" ++
  "Message: \x7b\x7b\x7bmessage\x7d\x7d\x7d\n" ++
  "\x7b\x7b#if image\x7d\x7d\n" ++
  "User Image: \x7b\x7bmedia url=image\x7d\x7d\n" ++
  "Please describe the image.\n" ++
  "\x7b\x7b/if\x7d\x7d"

/-- One external call made by `generateResponseFlow`: the template string of
the prompt object invoked and the input it was invoked with.  The prompt sent
to the model is rendered from exactly this pair. -/
structure PromptCall where
  template : String
  input : GenerateResponseInput
  deriving DecidableEq

/-- generateResponseFlow of `src/ai/flows/generate-response.ts`
(lines 135 to 145).  The body is a try block invoking
`generateResponsePrompt`; the flow returns its output as is (the non-null
assertion `output!` performs no check, so a missing output is returned
without triggering the catch).  When the primary invocation throws, the catch
block invokes `generateResponseFallbackPrompt` once with the same input and
returns its output; a throw there propagates to the caller.  The second
component is the trace of external calls made, in order. -/
def generateResponseFlow
    (primaryClient fallbackClient :
      GenerateResponseInput → Except String (Option GenerateResponseOutput))
    (input : GenerateResponseInput) :
    Except String (Option GenerateResponseOutput) × List PromptCall :=
  let c1 : PromptCall := ⟨generateResponsePromptTemplate, input⟩
  let c2 : PromptCall := ⟨generateResponseFallbackPromptTemplate, input⟩
  match primaryClient input with
  | .ok output => (.ok output, [c1])
  | .error _ =>
    match fallbackClient input with
    | .ok output => (.ok output, [c1, c2])
    | .error e => (.error e, [c1, c2])

/-- RouteToFallbackModelInputSchema: the user input to process. -/
structure RouteToFallbackModelInput where
  userInput : String
  deriving DecidableEq

/-- RouteToFallbackModelOutputSchema: the response from the AI model. -/
structure RouteToFallbackModelOutput where
  response : String
  deriving DecidableEq

/-- Rendered prompt of `primaryModelPrompt` (its template interpolates only
`userInput`). -/
def primaryModelPromptText (userInput : String) : String :=
  "You are a helpful chatbot. Respond to the following user input: " ++ userInput

/-- Rendered prompt of `fallbackModelPrompt` (its template interpolates only
`userInput`). -/
def fallbackModelPromptText (userInput : String) : String :=
  "You are a backup chatbot. Respond to the following user input: " ++ userInput

/-- Error raised by evaluating `output!.response` when `output` is null. -/
def nullOutputError : String :=
  "TypeError: cannot read response of null"

/-- routeToFallbackModelFlow (lines 67 to 76 of its file).  The try block
invokes the primary prompt and evaluates `output!.response`; a null output
makes that expression throw inside the try, so it, like any thrown error,
routes to the catch block, which invokes the fallback prompt once and
evaluates `output!.response` on its result, where a throw (including the
null-output throw) propagates to the caller.  Clients take the rendered
prompt string; the second component is the trace of prompts sent. -/
def routeToFallbackModelFlow
    (primaryClient fallbackClient :
      String → Except String (Option RouteToFallbackModelOutput))
    (input : RouteToFallbackModelInput) :
    Except String RouteToFallbackModelOutput × List String :=
  let p1 := primaryModelPromptText input.userInput
  let p2 := fallbackModelPromptText input.userInput
  let fallbackPath : Except String RouteToFallbackModelOutput :=
    match fallbackClient p2 with
    | .ok (some output) => .ok ⟨output.response⟩
    | .ok none => .error nullOutputError
    | .error e => .error e
  match primaryClient p1 with
  | .ok (some output) => (.ok ⟨output.response⟩, [p1])
  | .ok none => (fallbackPath, [p1, p2])
  | .error _ => (fallbackPath, [p1, p2])

/-- Outcome of the UI send handler: either the send is silently dropped or a
request is passed to the generate entry point. -/
inductive SendOutcome where
  | ignored
  | send (request : GenerateResponseInput)
  deriving DecidableEq

/-- handleSendMessage guard and request construction from the image-capable
page component: `if (!input.trim() && !selectedImage) return;` drops the send
silently, otherwise `generateResponse` is called with the typed message, the
current message list as history, and `selectedImage || <empty>` as image. -/
def handleSendMessage (input : String) (selectedImage : Option String)
    (messages : List ChatMessage) : SendOutcome :=
  if (jsTrim input).isEmpty && !optTruthy selectedImage then .ignored
  else .send { message := input, chatHistory := some messages,
               image := some (selectedImage.getD "") }

set_option maxRecDepth 100000

/-- Appending the empty string on the right is the identity. -/
theorem strAppendEmpty (s : String) : s ++ "" = s := by
  cases s
  simp [String.instAppend, String.append]

/-- Concrete request used as a test point: a plain text message. -/
def req0 : GenerateResponseInput :=
  { message := "Hello", chatHistory := none, image := none }

/-- Concrete request with both message and image empty or absent. -/
def emptyRequest : GenerateResponseInput :=
  { message := "", chatHistory := none, image := none }

/-- Concrete request whose history is present but empty. -/
def emptyHistoryRequest : GenerateResponseInput :=
  { message := "Hello", chatHistory := some [], image := none }

/-- Concrete request with an empty message and a present image. -/
def imageOnlyRequest : GenerateResponseInput :=
  { message := "", chatHistory := none, image := some "https://example.com/cat.png" }

/-- Client behaviour: the primary prompt invocation always throws. -/
def primaryThrows : GenerateResponseInput → Except String (Option GenerateResponseOutput) :=
  fun _ => .error "primary transport error"

/-- Client behaviour: the primary prompt invocation returns without output. -/
def primaryNoOutput : GenerateResponseInput → Except String (Option GenerateResponseOutput) :=
  fun _ => .ok none

/-- Client behaviour: the primary prompt invocation succeeds. -/
def primarySucceeds : GenerateResponseInput → Except String (Option GenerateResponseOutput) :=
  fun _ => .ok (some { response := "Primary answer" })

/-- Client behaviour: the fallback prompt invocation succeeds. -/
def fallbackSucceeds : GenerateResponseInput → Except String (Option GenerateResponseOutput) :=
  fun _ => .ok (some { response := "Hi there!" })

/-- Client behaviour: the fallback prompt invocation always throws. -/
def fallbackThrows : GenerateResponseInput → Except String (Option GenerateResponseOutput) :=
  fun _ => .error "fallback transport error"

/-- Route-flow client behaviour: every call succeeds. -/
def routeClientOk : String → Except String (Option RouteToFallbackModelOutput) :=
  fun _ => .ok (some { response := "route answer" })

/-- Route-flow client behaviour: every call throws. -/
def routeClientThrows : String → Except String (Option RouteToFallbackModelOutput) :=
  fun _ => .error "route transport error"

/-- String-builder client behaviour: every call succeeds. -/
def clientOk : String → Except String String :=
  fun _ => .ok "model reply"

/-- String-builder client behaviour: every call throws. -/
def clientThrows : String → Except String String :=
  fun _ => .error "boom"

/-- C1 counterexample: with a primary invocation that throws and a fallback
invocation that succeeds, the flow does invoke the fallback exactly once with
the same input, but through the prompt object
`generateResponseFallbackPrompt`, whose template string differs from the
primary template, so the built prompt sent on the fallback call is not
identical to the primary one.  Moreover a primary invocation that returns
without any output does not trigger the fallback at all: the flow returns the
missing output after a single call. -/
theorem C1_fallback_prompt_not_identical :
    (generateResponseFlow primaryThrows fallbackSucceeds req0).2.map PromptCall.template
      = [generateResponsePromptTemplate, generateResponseFallbackPromptTemplate]
    ∧ generateResponseFallbackPromptTemplate ≠ generateResponsePromptTemplate
    ∧ (generateResponseFlow primaryNoOutput fallbackSucceeds req0).2
      = [⟨generateResponsePromptTemplate, req0⟩] :=
  ⟨rfl, by decide, rfl⟩

/-- C1 (amended): when the primary prompt invocation throws, the flow invokes
the fallback prompt exactly once with the same, unrebuilt input — but through
the distinct fallback prompt definition (different template) — and when that
invocation succeeds its output is returned as the result; a primary
invocation that merely returns without output does not trigger the
fallback. -/
theorem C1_fallback_invoked_once_same_input
    (p f p2 f2 : GenerateResponseInput → Except String (Option GenerateResponseOutput))
    (input input2 : GenerateResponseInput) (e : String) (o : GenerateResponseOutput)
    (hp : p input = .error e) (hf : f input = .ok (some o))
    (hp2 : p2 input2 = .ok none) :
    generateResponseFlow p f input
      = (.ok (some o), [⟨generateResponsePromptTemplate, input⟩,
          ⟨generateResponseFallbackPromptTemplate, input⟩])
    ∧ generateResponseFlow p2 f2 input2
      = (.ok none, [⟨generateResponsePromptTemplate, input2⟩]) := by
  constructor
  · simp [generateResponseFlow, hp, hf]
  · simp [generateResponseFlow, hp2]

/-- Witness for C1 (amended) at a concrete request and concrete client
behaviours. -/
theorem C1_fallback_invoked_once_same_input_witness :
    generateResponseFlow primaryThrows fallbackSucceeds req0
      = (.ok (some { response := "Hi there!" }), [⟨generateResponsePromptTemplate, req0⟩,
          ⟨generateResponseFallbackPromptTemplate, req0⟩])
    ∧ generateResponseFlow primaryNoOutput fallbackSucceeds req0
      = (.ok none, [⟨generateResponsePromptTemplate, req0⟩]) :=
  C1_fallback_invoked_once_same_input primaryThrows fallbackSucceeds
    primaryNoOutput fallbackSucceeds req0 req0 "primary transport error"
    { response := "Hi there!" } rfl rfl rfl

/-- C2: when the primary call succeeds with an output, the fallback is never
invoked, exactly one external call is made, and the primary output is
returned — in the two-template flow of `generate-response.ts` and in
`routeToFallbackModelFlow` alike. -/
theorem C2_success_short_circuit
    (p f : GenerateResponseInput → Except String (Option GenerateResponseOutput))
    (input : GenerateResponseInput) (o : GenerateResponseOutput)
    (hp : p input = .ok (some o))
    (p2 f2 : String → Except String (Option RouteToFallbackModelOutput))
    (input2 : RouteToFallbackModelInput) (o2 : RouteToFallbackModelOutput)
    (hp2 : p2 (primaryModelPromptText input2.userInput) = .ok (some o2)) :
    generateResponseFlow p f input
      = (.ok (some o), [⟨generateResponsePromptTemplate, input⟩])
    ∧ routeToFallbackModelFlow p2 f2 input2
      = (.ok ⟨o2.response⟩, [primaryModelPromptText input2.userInput]) := by
  constructor
  · simp [generateResponseFlow, hp]
  · simp [routeToFallbackModelFlow, hp2]

/-- Witness for C2 at a concrete request and concrete client behaviours. -/
theorem C2_success_short_circuit_witness :
    generateResponseFlow primarySucceeds fallbackThrows req0
      = (.ok (some { response := "Primary answer" }),
         [⟨generateResponsePromptTemplate, req0⟩])
    ∧ routeToFallbackModelFlow routeClientOk routeClientThrows ⟨"Hello"⟩
      = (.ok ⟨"route answer"⟩, [primaryModelPromptText "Hello"]) :=
  C2_success_short_circuit primarySucceeds fallbackThrows req0
    { response := "Primary answer" } rfl routeClientOk routeClientThrows
    ⟨"Hello"⟩ { response := "route answer" } rfl

/-- C3: under every client behaviour both flows make at most two external
calls, and when the primary call fails and the fallback call also fails the
trace is exactly one primary call followed by one fallback call — the
fallback is never retried. -/
theorem C3_at_most_two_calls
    (p f : GenerateResponseInput → Except String (Option GenerateResponseOutput))
    (input : GenerateResponseInput)
    (p2 f2 : String → Except String (Option RouteToFallbackModelOutput))
    (input2 : RouteToFallbackModelInput) :
    (generateResponseFlow p f input).2.length ≤ 2
    ∧ (routeToFallbackModelFlow p2 f2 input2).2.length ≤ 2
    ∧ (∀ e1 e2, p input = .error e1 → f input = .error e2 →
        (generateResponseFlow p f input).2
          = [⟨generateResponsePromptTemplate, input⟩,
             ⟨generateResponseFallbackPromptTemplate, input⟩])
    ∧ (∀ e1 e2, p2 (primaryModelPromptText input2.userInput) = .error e1 →
        f2 (fallbackModelPromptText input2.userInput) = .error e2 →
        (routeToFallbackModelFlow p2 f2 input2).2
          = [primaryModelPromptText input2.userInput,
             fallbackModelPromptText input2.userInput]) := by
  refine ⟨?_, ?_, ?_, ?_⟩
  · cases hp : p input with
    | ok o => simp [generateResponseFlow, hp]
    | error e =>
      cases hf : f input with
      | ok o => simp [generateResponseFlow, hp, hf]
      | error e2 => simp [generateResponseFlow, hp, hf]
  · cases hp : p2 (primaryModelPromptText input2.userInput) with
    | ok o =>
      cases o with
      | some v => simp [routeToFallbackModelFlow, hp]
      | none =>
        cases hf : f2 (fallbackModelPromptText input2.userInput) with
        | ok o2 => cases o2 <;> simp [routeToFallbackModelFlow, hp, hf]
        | error e2 => simp [routeToFallbackModelFlow, hp, hf]
    | error e =>
      cases hf : f2 (fallbackModelPromptText input2.userInput) with
      | ok o2 => cases o2 <;> simp [routeToFallbackModelFlow, hp, hf]
      | error e2 => simp [routeToFallbackModelFlow, hp, hf]
  · intro e1 e2 hp hf
    simp [generateResponseFlow, hp, hf]
  · intro e1 e2 hp hf
    simp [routeToFallbackModelFlow, hp, hf]

/-- Witness for C3: both flows run against clients that always throw; the
double-failure clauses are discharged at that concrete point. -/
theorem C3_at_most_two_calls_witness :
    (generateResponseFlow primaryThrows fallbackThrows req0).2
      = [⟨generateResponsePromptTemplate, req0⟩,
         ⟨generateResponseFallbackPromptTemplate, req0⟩]
    ∧ (routeToFallbackModelFlow routeClientThrows routeClientThrows ⟨"Hello"⟩).2
      = [primaryModelPromptText "Hello", fallbackModelPromptText "Hello"] :=
  ⟨(C3_at_most_two_calls primaryThrows fallbackThrows req0
      routeClientThrows routeClientThrows ⟨"Hello"⟩).2.2.1
      "primary transport error" "fallback transport error" rfl rfl,
   (C3_at_most_two_calls primaryThrows fallbackThrows req0
      routeClientThrows routeClientThrows ⟨"Hello"⟩).2.2.2
      "route transport error" "route transport error" rfl rfl⟩

/-- C4 counterexample: when both the primary and the fallback invocation
throw, `generateResponseFlow` propagates the fallback error to its caller as
a raised fault; it does not return a normal result, and in particular not one
carrying the stable failure message. -/
theorem C4_total_failure_raises :
    generateResponseFlow primaryThrows fallbackThrows req0
      = (.error "fallback transport error",
         [⟨generateResponsePromptTemplate, req0⟩,
          ⟨generateResponseFallbackPromptTemplate, req0⟩])
    ∧ (generateResponseFlow primaryThrows fallbackThrows req0).1
        ≠ .ok (some { response := fallbackFailureMessage }) :=
  ⟨rfl, fun h => Except.noConfusion h⟩

/-- C4 (amended): in the two-template flow a double failure propagates the
fallback error as a raised fault; the stable non-technical message
`Failed to get response from AI. Please try again.` is returned as a normal
result value only by the string-builder iteration, which produces it whenever
its single model call throws, never echoing the underlying error text (its
result is the same fixed value for every thrown error). -/
theorem C4_total_failure_behavior
    (p f : GenerateResponseInput → Except String (Option GenerateResponseOutput))
    (input : GenerateResponseInput) (e1 e2 : String)
    (hp : p input = .error e1) (hf : f input = .error e2)
    (client : String → Except String String) (input2 : GenerateResponseInput)
    (e3 : String) (hc : client (buildPrompt input2) = .error e3) :
    (generateResponseFlow p f input).1 = .error e2
    ∧ generateResponseFlowSB client input2
        = ({ response := fallbackFailureMessage }, [buildPrompt input2]) := by
  constructor
  · simp [generateResponseFlow, hp, hf]
  · simp [generateResponseFlowSB, hc]

/-- Witness for C4 (amended) at concrete throwing clients. -/
theorem C4_total_failure_behavior_witness :
    (generateResponseFlow primaryThrows fallbackThrows req0).1
      = .error "fallback transport error"
    ∧ generateResponseFlowSB clientThrows emptyRequest
        = ({ response := fallbackFailureMessage }, [buildPrompt emptyRequest]) :=
  C4_total_failure_behavior primaryThrows fallbackThrows req0
    "primary transport error" "fallback transport error" rfl rfl
    clientThrows emptyRequest "boom" rfl

/-- C5 counterexample: invoked directly on a request with both message and
image empty, the generate entry point performs no validation: it makes one
external model call and returns whatever the client answers, rather than
yielding an invalid-request error without calling the model. -/
theorem C5_entry_point_calls_model :
    generateResponseFlowSB clientOk emptyRequest
      = ({ response := "model reply" }, [buildPrompt emptyRequest])
    ∧ (generateResponseFlowSB clientOk emptyRequest).2.length = 1 :=
  ⟨rfl, rfl⟩

/-- C5 (amended): the empty-message-and-image case is rejected only in the
UI: `handleSendMessage` returns early, sending no request and surfacing no
error value, whenever the trimmed input is empty and no image is selected;
the generate entry point itself validates nothing and always makes exactly
one external call on the prompt it builds. -/
theorem C5_guard_in_ui_only
    (input : String) (selectedImage : Option String) (messages : List ChatMessage)
    (hin : (jsTrim input).isEmpty = true) (him : optTruthy selectedImage = false)
    (client : String → Except String String) (request : GenerateResponseInput) :
    handleSendMessage input selectedImage messages = .ignored
    ∧ (generateResponseFlowSB client request).2 = [buildPrompt request] := by
  constructor
  · simp [handleSendMessage, hin, him]
  · cases hc : client (buildPrompt request) <;> simp [generateResponseFlowSB, hc]

/-- Witness for C5 (amended): empty input, no image, a client that answers,
and the empty request. -/
theorem C5_guard_in_ui_only_witness :
    handleSendMessage "" none [] = .ignored
    ∧ (generateResponseFlowSB clientOk emptyRequest).2 = [buildPrompt emptyRequest] :=
  C5_guard_in_ui_only "" none [] rfl rfl clientOk emptyRequest

/-- C6 counterexample: a present but empty history list is truthy in
JavaScript, so the string-builder prompt for it still contains the
`Chat History:` header even though there are no turns. -/
theorem C6_empty_history_emits_header :
    emptyHistoryRequest.chatHistory = some []
    ∧ strContains (buildPrompt emptyHistoryRequest) "Chat History:" = true :=
  ⟨rfl, by decide⟩

/-- C6 (amended): when the history field is absent the built prompt is
exactly the preamble, the message line and the image section — no history
header or role lines are emitted; when the history field is present but
empty, the `Chat History:` header is still emitted, followed by no turn
lines. -/
theorem C6_history_section_shape
    (r1 r2 : GenerateResponseInput)
    (h1 : r1.chatHistory = none) (h2 : r2.chatHistory = some []) :
    buildPrompt r1 = systemPreamble ++ "\nMessage: " ++ r1.message ++ imageSection r1
    ∧ buildPrompt r2 = systemPreamble ++ "\nChat History:\n" ++ "\nMessage: "
        ++ r2.message ++ imageSection r2 := by
  constructor
  · simp [buildPrompt, renderHistorySection, h1, strAppendEmpty]
  · simp [buildPrompt, renderHistorySection, h2, String.join, strAppendEmpty]

/-- Witness for C6 (amended) at an absent-history and an empty-history
request. -/
theorem C6_history_section_shape_witness :
    buildPrompt req0 = systemPreamble ++ "\nMessage: " ++ req0.message ++ imageSection req0
    ∧ buildPrompt emptyHistoryRequest = systemPreamble ++ "\nChat History:\n"
        ++ "\nMessage: " ++ emptyHistoryRequest.message ++ imageSection emptyHistoryRequest :=
  C6_history_section_shape req0 emptyHistoryRequest rfl rfl

/-- C7 counterexample: for an empty message with a present image, the
string-builder guard `if (input.message && input.image)` is false, so the
built prompt contains neither the image reference nor the
`Please describe the image.` instruction. -/
theorem C7_image_only_prompt_lacks_image :
    imageOnlyRequest.message = ""
    ∧ imageOnlyRequest.image = some "https://example.com/cat.png"
    ∧ strContains (buildPrompt imageOnlyRequest) "User Image:" = false
    ∧ strContains (buildPrompt imageOnlyRequest) "Please describe the image." = false
    ∧ strContains (buildPrompt imageOnlyRequest) "https://example.com/cat.png" = false :=
  ⟨rfl, rfl, by decide, by decide, by decide⟩

/-- C7 (amended): the string builder emits the image reference and the
describe instruction only when the message is also non-empty; with an empty
message and a present image the built prompt is still non-empty — the
preamble and the empty message line — but omits the image entirely. -/
theorem C7_image_needs_message
    (msg img : String) (hm : msg.isEmpty = false) (hi : img.isEmpty = false) :
    buildPrompt { message := msg, chatHistory := none, image := some img }
      = systemPreamble ++ "\nMessage: " ++ msg
          ++ ("\nUser Image: " ++ img ++ "\nPlease describe the image.")
    ∧ buildPrompt { message := "", chatHistory := none, image := some img }
      = systemPreamble ++ "\nMessage: "
    ∧ buildPrompt { message := "", chatHistory := none, image := some img } ≠ "" := by
  have he : ("" : String).isEmpty = true := rfl
  have h2 : buildPrompt { message := "", chatHistory := none, image := some img }
      = systemPreamble ++ "\nMessage: " := by
    simp [buildPrompt, renderHistorySection, imageSection, he, strAppendEmpty]
  refine ⟨?_, h2, ?_⟩
  · simp [buildPrompt, renderHistorySection, imageSection, hm, hi, strAppendEmpty]
  · rw [h2]; decide

/-- Witness for C7 (amended) at a concrete message and image. -/
theorem C7_image_needs_message_witness :
    buildPrompt { message := "Hello", chatHistory := none, image := some "https://example.com/cat.png" }
      = systemPreamble ++ "\nMessage: " ++ "Hello"
          ++ ("\nUser Image: " ++ "https://example.com/cat.png" ++ "\nPlease describe the image.")
    ∧ buildPrompt { message := "", chatHistory := none, image := some "https://example.com/cat.png" }
      = systemPreamble ++ "\nMessage: "
    ∧ buildPrompt { message := "", chatHistory := none, image := some "https://example.com/cat.png" } ≠ "" :=
  C7_image_needs_message "Hello" "https://example.com/cat.png" rfl rfl

/-- C8: the prompt builder is deterministic.  The embedding shows the built
prompt is a pure function of the request alone — the source concatenation
reads nothing but the request fields, no randomness and no timestamps — so
equal requests yield byte-identical prompts. -/
theorem C8_prompt_builder_deterministic
    (r1 r2 : GenerateResponseInput) (h : r1 = r2) :
    buildPrompt r1 = buildPrompt r2 := by
  rw [h]

/-- Witness for C8 at a concrete request. -/
theorem C8_prompt_builder_deterministic_witness :
    buildPrompt req0 = buildPrompt req0 :=
  C8_prompt_builder_deterministic req0 req0 rfl

/-- C9: the string-builder flow is total over every client behaviour: it
always returns a `GenerateResponseOutput`, wrapping the client text when the
call succeeds and the fixed failure message when the call throws, after
exactly one external call in either case. -/
theorem C9_flow_never_raises
    (client : String → Except String String) (input : GenerateResponseInput) :
    (∃ t, client (buildPrompt input) = .ok t
       ∧ generateResponseFlowSB client input = ({ response := t }, [buildPrompt input]))
    ∨ (∃ e, client (buildPrompt input) = .error e
       ∧ generateResponseFlowSB client input
           = ({ response := fallbackFailureMessage }, [buildPrompt input])) := by
  cases hc : client (buildPrompt input) with
  | ok t => exact Or.inl ⟨t, rfl, by simp [generateResponseFlowSB, hc]⟩
  | error e => exact Or.inr ⟨e, rfl, by simp [generateResponseFlowSB, hc]⟩

/-- Witness for C9 at a concrete client and request. -/
theorem C9_flow_never_raises_witness :
    (∃ t, clientOk (buildPrompt req0) = .ok t
       ∧ generateResponseFlowSB clientOk req0 = ({ response := t }, [buildPrompt req0]))
    ∨ (∃ e, clientOk (buildPrompt req0) = .error e
       ∧ generateResponseFlowSB clientOk req0
           = ({ response := fallbackFailureMessage }, [buildPrompt req0])) :=
  C9_flow_never_raises clientOk req0

/-- C10: in the string-builder history serialization a turn image reaches the
prompt only on user turns: a non-user turn renders to exactly its `AI:` line,
whatever its image field holds, while a user turn with a truthy image renders
to its `User:` line followed by the `User Image:` line. -/
theorem C10_history_image_user_only (m : ChatMessage) :
    (m.isUser = false → renderTurn m = "AI: " ++ m.text ++ "\n")
    ∧ (∀ img : String, m.isUser = true → m.image = some img → img.isEmpty = false →
        renderTurn m = "User: " ++ m.text ++ "\n" ++ ("User Image: " ++ img ++ "\n")) := by
  constructor
  · intro h
    simp [renderTurn, h]
  · intro img hu hi hne
    simp [renderTurn, hu, hi, hne]

/-- Witness for C10: an assistant turn carrying an image renders with the
image silently omitted; a user turn carrying the same image renders it. -/
theorem C10_history_image_user_only_witness :
    renderTurn { text := "ok", isUser := false, image := some "pic.png" }
      = "AI: " ++ "ok" ++ "\n"
    ∧ renderTurn { text := "look", isUser := true, image := some "pic.png" }
      = "User: " ++ "look" ++ "\n" ++ ("User Image: " ++ "pic.png" ++ "\n") :=
  ⟨(C10_history_image_user_only { text := "ok", isUser := false, image := some "pic.png" }).1 rfl,
   (C10_history_image_user_only { text := "look", isUser := true, image := some "pic.png" }).2
     "pic.png" rfl rfl rfl⟩
